import Mathlib

/-
Shallow embedding of the enterprise-mcp-auth repository (Azure AI Search MCP
server with On-Behalf-Of token relay), together with proofs settling the
specification claims against it.

The embedded code is `src/enterprise_mcp_auth/server/ai_search_mcp_server.py`
(the current server module: tools `search_documents`, `get_document`,
`suggest`, `get_user_info`, and the OBO helpers `get_obo_token` /
`get_search_client_with_obo`) and the index/sample-data definitions from the
ingestion modules (`ai_search_ingestion/create_index_and_documents.py` and
`src/enterprise_mcp_auth/ingestion/create_index_and_documents.py`).

External collaborators (the MSAL confidential client performing the OBO
grant, and the Azure AI Search service reached through
`azure.search.documents.SearchClient`) are modelled as oracles passed in as
function parameters; the state threaded through the embedded functions
records every invocation of those oracles so that call counts and the exact
arguments handed to the backing store are provable facts.
-/

namespace EnterpriseMcpAuth

/-- JSON-like field values occurring in documents and token claims: strings,
arrays of strings (the `oid` / `group` permission collections), or null
(a missing claim looked up with `dict.get`). -/
inductive JVal where
  | s (v : String)
  | arr (vs : List String)
  | null
  deriving Repr, DecidableEq

/-- A document as handed around by the server code: a Python dict, embedded
as an association list from field name to value. -/
abbrev RawDoc := List (String × JVal)

/-- Result dictionary of `msal.ConfidentialClientApplication.acquire_token_on_behalf_of`:
the code probes it with `"access_token" in result`, `result.get("error", ...)`
and `result.get("error_description", ...)`, so the three optional entries are
all the embedding needs. -/
structure MsalResult where
  access_token : Option String
  error : Option String
  error_description : Option String
  deriving Repr, DecidableEq

/-- A successful token response from the exchange provider. -/
def msalOk (tok : String) : MsalResult :=
  ⟨some tok, none, none⟩

/-- A failed exchange response carrying the provider's raw error code and
raw error description. -/
def msalErr (e d : String) : MsalResult :=
  ⟨none, some e, some d⟩

/-- The scope list hard-coded in `get_obo_token`:
`scopes=["https://search.azure.com/.default"]`. -/
def obo_scopes : List String :=
  ["https://search.azure.com/.default"]

/-- A request the relay issues to the backing store, as assembled by the
tool bodies: the search / get_document / suggest call with the arguments the
code passes, including the OBO token attached via
`x_ms_query_source_authorization`. -/
inductive StoreReq where
  | searchReq (query : String) (top : Int) (oboToken : String)
  | getReq (key : String) (oboToken : String)
  | suggestReq (query : String) (top : Int) (suggesterName : String) (oboToken : String)
  deriving Repr, DecidableEq

/-- Instrumented server state: the list of provider invocations (each with
the `user_assertion` and `scopes` arguments given to
`acquire_token_on_behalf_of`) and the list of requests issued to the backing
store. The Python module itself keeps no per-request mutable state besides
the lazily created `msal_app` singleton, which is invocation-irrelevant once
configured. -/
structure ServerState where
  oboCalls : List (String × List String)
  storeReqs : List StoreReq
  deriving Repr, DecidableEq

/-- The state at process start: no provider invocations, no store requests. -/
def ServerState.start : ServerState :=
  ⟨[], []⟩

/-- The exchange provider oracle: the result of the i-th invocation of
`acquire_token_on_behalf_of` during the run. -/
abbrev Provider := Nat → MsalResult

/-- Embedding of `get_obo_token` (server module, lines 102-149): invoke the
provider once with `(user_token, obo_scopes)`; if the result dictionary has
an `access_token` entry return it, otherwise raise
`Exception(f"OBO token acquisition failed: {error}: {error_desc}")` where
`error` defaults to `"unknown_error"` and `error_desc` to
`"Failed to acquire OBO token"`. The raised exception is the `Except.error`
branch. There is no cache lookup, no retry loop and no expiry check. -/
def get_obo_token (provider : Provider) (st : ServerState) (user_token : String) :
    Except String String × ServerState :=
  let result := provider st.oboCalls.length
  let st' : ServerState := { st with oboCalls := st.oboCalls ++ [(user_token, obo_scopes)] }
  match result.access_token with
  | some tok => (Except.ok tok, st')
  | none =>
      let err := result.error.getD "unknown_error"
      let desc := result.error_description.getD "Failed to acquire OBO token"
      (Except.error ("OBO token acquisition failed: " ++ err ++ ": " ++ desc), st')

/-- Embedding of `get_search_client_with_obo` (lines 152-171): acquire the
OBO token and return it alongside the search client. The client itself is
built from the endpoint, index name and admin-key credential only and holds
no token state, so the embedding returns just the OBO token. -/
def get_search_client_with_obo (provider : Provider) (st : ServerState) (user_token : String) :
    Except String String × ServerState :=
  get_obo_token provider st user_token

/-- The inbound access token as surfaced by `get_access_token()`: the raw
token string and the verified claims dictionary. -/
structure AccessToken where
  token : String
  claims : List (String × JVal)
  deriving Repr, DecidableEq

/-- Python's `str.startswith`: the second string is a character-wise
prefix of the first. Defined structurally on the character lists so that it
evaluates by kernel reduction. -/
def pyStartswith (s pre : String) : Bool :=
  pre.data.isPrefixOf s.data

/-- The result-projection comprehension appearing in all three query tools:
`{k: v for k, v in result.items() if not k.startswith("@")}` — keep every
key/value pair whose key does not start with `"@"`, values untouched. -/
def project (doc : RawDoc) : RawDoc :=
  doc.filter (fun kv => !(pyStartswith kv.1 "@"))

/-- Backing-store oracle for the search call: given (query, top, obo token)
either return the raw result documents or raise (the `Except.error`
branch). -/
abbrev SearchFn := String → Int → String → Except String (List RawDoc)

/-- Backing-store oracle for the get-document call. -/
abbrev GetFn := String → String → Except String RawDoc

/-- Embedding of the `search_documents` tool (lines 174-210). Absent token:
return `[{"error": "Not authenticated"}]` untouched state. Otherwise acquire
the OBO token (an exchange failure propagates as a raised exception), issue
the store search with the caller's `top` unmodified and the OBO token
attached, and return the `@`-filtered projections of the results. -/
def search_documents (provider : Provider) (store : SearchFn) (st : ServerState)
    (accessToken : Option AccessToken) (query : String) (top : Int) :
    Except String (List RawDoc) × ServerState :=
  match accessToken with
  | none => (Except.ok [[("error", JVal.s "Not authenticated")]], st)
  | some atok =>
      match get_search_client_with_obo provider st atok.token with
      | (Except.error e, st1) => (Except.error e, st1)
      | (Except.ok obo, st1) =>
          let st2 : ServerState :=
            { st1 with storeReqs := st1.storeReqs ++ [StoreReq.searchReq query top obo] }
          match store query top obo with
          | Except.error e => (Except.error e, st2)
          | Except.ok results => (Except.ok (results.map project), st2)

/-- Embedding of the `get_document` tool (lines 213-245). Absent token:
return `{"error": "Not authenticated"}`. The OBO acquisition happens before
the `try:` block, so an exchange failure propagates as a raised exception.
Only the store call is guarded: on success the `@`-filtered projection is
returned, and on a store exception `e` the tool returns
`{"error": str(e), "id": id}` — the raw exception string, verbatim. -/
def get_document (provider : Provider) (storeGet : GetFn) (st : ServerState)
    (accessToken : Option AccessToken) (id : String) :
    Except String RawDoc × ServerState :=
  match accessToken with
  | none => (Except.ok [("error", JVal.s "Not authenticated")], st)
  | some atok =>
      match get_search_client_with_obo provider st atok.token with
      | (Except.error e, st1) => (Except.error e, st1)
      | (Except.ok obo, st1) =>
          let st2 : ServerState :=
            { st1 with storeReqs := st1.storeReqs ++ [StoreReq.getReq id obo] }
          match storeGet id obo with
          | Except.ok document => (Except.ok (project document), st2)
          | Except.error e =>
              (Except.ok [("error", JVal.s e), ("id", JVal.s id)], st2)

/-- Embedding of the `suggest` tool (lines 248-285): like the search tool but
against the store's suggest API with the fixed suggester name `"sg"`. -/
def suggest (provider : Provider) (store : SearchFn) (st : ServerState)
    (accessToken : Option AccessToken) (query : String) (top : Int) :
    Except String (List RawDoc) × ServerState :=
  match accessToken with
  | none => (Except.ok [[("error", JVal.s "Not authenticated")]], st)
  | some atok =>
      match get_search_client_with_obo provider st atok.token with
      | (Except.error e, st1) => (Except.error e, st1)
      | (Except.ok obo, st1) =>
          let st2 : ServerState :=
            { st1 with storeReqs := st1.storeReqs ++ [StoreReq.suggestReq query top "sg" obo] }
          match store query top obo with
          | Except.error e => (Except.error e, st2)
          | Except.ok results => (Except.ok (results.map project), st2)

/-- `token.claims.get(k)` — claim lookup returning null when absent. -/
def claims_get (claims : List (String × JVal)) (k : String) : JVal :=
  match claims.lookup k with
  | some v => v
  | none => JVal.null

/-- Embedding of the `get_user_info` tool (lines 288-300): absent token
yields `{"error": "Not authenticated"}`; otherwise a fixed projection of the
verified claims. No provider or store interaction at all. -/
def get_user_info (st : ServerState) (accessToken : Option AccessToken) :
    RawDoc × ServerState :=
  match accessToken with
  | none => ([("error", JVal.s "Not authenticated")], st)
  | some tok =>
      ([("azure_id", claims_get tok.claims "sub"),
        ("email", claims_get tok.claims "email"),
        ("name", claims_get tok.claims "name"),
        ("job_title", claims_get tok.claims "job_title"),
        ("office_location", claims_get tok.claims "office_location")], st)

/-- Kind of permission-filter role a field plays in the index, from
`azure.search.documents.indexes.models.PermissionFilter`: the ingestion code
marks `oid` with `USER_IDS` and `group` with `GROUP_IDS`. -/
inductive PermFilterKind where
  | userIds
  | groupIds
  deriving Repr, DecidableEq

/-- One index field definition as built in
`create_index_with_permission_filtering`
(`ai_search_ingestion/create_index_and_documents.py`, lines 53-91): name,
whether it is the key field, whether filterable, whether a searchable field,
and its permission-filter role if any. The source never sets the SDK's
`hidden`/retrievable option, whose default leaves every field retrievable. -/
structure IndexField where
  name : String
  isKey : Bool
  filterable : Bool
  searchable : Bool
  permFilter : Option PermFilterKind
  deriving Repr, DecidableEq

/-- The field list of the index created by
`create_index_with_permission_filtering`: `id` (key), `oid` (USER_IDS
permission filter), `group` (GROUP_IDS permission filter), and the
searchable content fields `name`, `content`, `category`. -/
def index_fields : List IndexField :=
  [⟨"id", true, true, false, none⟩,
   ⟨"oid", false, true, false, some PermFilterKind.userIds⟩,
   ⟨"group", false, true, false, some PermFilterKind.groupIds⟩,
   ⟨"name", false, true, true, none⟩,
   ⟨"content", false, false, true, none⟩,
   ⟨"category", false, true, true, none⟩]

/-- Names of the index fields that carry a permission-filter role: these are
exactly the authorized-subject-ids (`oid`) and authorized-group-ids
(`group`) fields of the PermissionDescriptor. -/
def permission_field_names : List String :=
  (index_fields.filter (fun f => f.permFilter.isSome)).map (fun f => f.name)

/-- First sample document of `get_sample_documents`
(`src/enterprise_mcp_auth/ingestion/create_index_and_documents.py`,
lines 120-127), exactly as uploaded to the index: its `oid` and `group`
entries are the permission fields. -/
def sample_doc1 : RawDoc :=
  [("id", JVal.s "doc1"),
   ("oid", JVal.arr ["user1@example.com", "user2@example.com"]),
   ("group", JVal.arr ["group1", "group2"]),
   ("name", JVal.s "Security Best Practices"),
   ("content", JVal.s "This document contains security best practices for enterprise applications including authentication, authorization, and data protection strategies."),
   ("category", JVal.s "Security")]

/-- Second sample document of `get_sample_documents` (lines 128-135). -/
def sample_doc2 : RawDoc :=
  [("id", JVal.s "doc2"),
   ("oid", JVal.arr ["user1@example.com"]),
   ("group", JVal.arr ["group1"]),
   ("name", JVal.s "Azure AI Search Overview"),
   ("content", JVal.s "Azure AI Search is a cloud search service that provides infrastructure, APIs, and tools for building search experiences over private, heterogeneous content in web, mobile, and enterprise applications."),
   ("category", JVal.s "Documentation")]

/-- A document as held by the permission-filtered store: its key, its two
permission collections, and the full stored field dictionary. -/
structure PermDoc where
  key : String
  oids : List String
  groups : List String
  fields : RawDoc
  deriving Repr, DecidableEq

/-- A caller as the store sees it through the attached OBO token: a subject
id and group memberships. -/
structure Caller where
  subjectId : String
  groupIds : List String
  deriving Repr, DecidableEq

/-- Modelled from the spec: the Permission-Filtered Store's visibility rule
(spec section 3, PermissionDescriptor invariant) — a document is visible to
a caller iff the caller's subject id is in the document's authorized-subject
list or one of the caller's group ids is in its authorized-group list. The
store itself (Azure AI Search behind `azure.search.documents.SearchClient`)
is an external collaborator not present in the repository. -/
def visibleTo (c : Caller) (d : PermDoc) : Bool :=
  d.oids.contains c.subjectId || d.groups.any (fun g => c.groupIds.contains g)

/-- The store's not-found error message for a key: a function of the key
only, identical whether the document is absent or merely not visible. -/
def notFoundMessage (key : String) : String :=
  "() The index does not contain a document with the key: " ++ key

/-- Modelled from the spec: the Permission-Filtered Store's get-by-key
operation (spec sections 4.4 and 6) — it returns the stored fields when the
document exists and is visible to the caller asserted by the attached OBO
token, and otherwise raises the same not-found error whether the key is
absent or the document is merely not authorized. The real store is the
external Azure AI Search service; this definition follows the spec's store
boundary. -/
def permStoreGet (docs : List PermDoc) (c : Caller) : GetFn :=
  fun key _oboToken =>
    match docs.find? (fun d => d.key == key) with
    | some d =>
        if visibleTo c d then Except.ok d.fields
        else Except.error (notFoundMessage key)
    | none => Except.error (notFoundMessage key)

/-
Interleaved execution of several request pipelines. Each inbound request
runs the same two downstream effects in order: (1) the unconditional
provider exchange inside `get_obo_token` — the code consults no cache and
holds no lock before calling `acquire_token_on_behalf_of` — and then (2) the
backing-store call. A thread is a program counter: 0 = about to perform its
exchange, 1 = exchange done and about to call the store, 2 = completed. A
schedule is the list of thread indices in the order the scheduler lets them
take their next step; the run counts provider exchange invocations.
-/

/-- One scheduler step: let thread `t` take its next pipeline step.
Advancing from 0 performs that request's provider exchange (counted);
advancing from 1 performs its store call; a completed or out-of-range thread
does nothing. -/
def schedStep (pcs : List Nat) (exchanges : Nat) (t : Nat) : List Nat × Nat :=
  match pcs[t]? with
  | some 0 => (pcs.set t 1, exchanges + 1)
  | some 1 => (pcs.set t 2, exchanges)
  | _ => (pcs, exchanges)

/-- Run a whole schedule from a thread-state list and an exchange count. -/
def schedRun : List Nat → List Nat → Nat → List Nat × Nat
  | [], pcs, ex => (pcs, ex)
  | t :: rest, pcs, ex =>
      let s := schedStep pcs ex t
      schedRun rest s.1 s.2

/-- Number of threads that have performed their exchange (program counter at
least 1). -/
def startedCount (pcs : List Nat) : Nat :=
  pcs.countP (fun pc => decide (1 ≤ pc))

/-- Membership in the projection: a key/value pair survives exactly when it
was present and its key does not start with `"@"`; the value is untouched. -/
theorem mem_project_iff (d : RawDoc) (k : String) (v : JVal) :
    (k, v) ∈ project d ↔ (k, v) ∈ d ∧ pyStartswith k "@" = false := by
  simp [project, List.mem_filter]

/-- State after a successful search call: exactly one provider invocation
with the caller's token and the fixed scope list is appended, and exactly
one store request carrying the caller's `query`/`top` and the fresh OBO
token. -/
theorem search_documents_state_ok (provider : Provider) (store : SearchFn)
    (st : ServerState) (atok : AccessToken) (q : String) (top : Int) (obo : String)
    (h : (provider st.oboCalls.length).access_token = some obo) :
    (search_documents provider store st (some atok) q top).2 =
      ⟨st.oboCalls ++ [(atok.token, obo_scopes)],
       st.storeReqs ++ [StoreReq.searchReq q top obo]⟩ := by
  cases hs : store q top obo <;>
    simp [search_documents, get_search_client_with_obo, get_obo_token, h, hs]

/-- State after a successful suggest call, analogously. -/
theorem suggest_state_ok (provider : Provider) (store : SearchFn)
    (st : ServerState) (atok : AccessToken) (q : String) (top : Int) (obo : String)
    (h : (provider st.oboCalls.length).access_token = some obo) :
    (suggest provider store st (some atok) q top).2 =
      ⟨st.oboCalls ++ [(atok.token, obo_scopes)],
       st.storeReqs ++ [StoreReq.suggestReq q top "sg" obo]⟩ := by
  cases hs : store q top obo <;>
    simp [suggest, get_search_client_with_obo, get_obo_token, h, hs]

/-- Every authenticated search call appends exactly one provider invocation,
whatever the provider or store answer: the code consults no cache before
calling `acquire_token_on_behalf_of`. -/
theorem search_documents_oboCalls (provider : Provider) (store : SearchFn)
    (st : ServerState) (atok : AccessToken) (q : String) (top : Int) :
    (search_documents provider store st (some atok) q top).2.oboCalls
      = st.oboCalls ++ [(atok.token, obo_scopes)] := by
  cases hp : (provider st.oboCalls.length).access_token with
  | none => simp [search_documents, get_search_client_with_obo, get_obo_token, hp]
  | some obo =>
      cases hs : store q top obo <;>
        simp [search_documents, get_search_client_with_obo, get_obo_token, hp, hs]

/-- Updating one position of a list shifts `countP` by the difference of the
predicate at the old and new values. -/
theorem countP_set_step (p : Nat → Bool) (l : List Nat) :
    ∀ (i : Nat) (w v : Nat), l[i]? = some w →
      (l.set i v).countP p + (if p w then 1 else 0)
        = l.countP p + (if p v then 1 else 0) := by
  induction l with
  | nil => intro i w v h; simp at h
  | cons a tl ih =>
      intro i w v h
      cases i with
      | zero =>
          simp at h
          subst h
          simp [List.countP_cons]
          omega
      | succ n =>
          simp at h
          have := ih n w v h
          simp [List.countP_cons]
          omega

/-- One scheduler step keeps the exchange count equal to the number of
threads that have performed their exchange. -/
theorem schedStep_started (pcs : List Nat) (ex t : Nat)
    (h : ex = startedCount pcs) :
    (schedStep pcs ex t).2 = startedCount (schedStep pcs ex t).1 := by
  unfold schedStep
  split
  · next hg =>
      have hstep := countP_set_step (fun x => decide (1 ≤ x)) pcs t 0 1 hg
      simp [startedCount] at hstep h ⊢
      omega
  · next hg =>
      have hstep := countP_set_step (fun x => decide (1 ≤ x)) pcs t 1 2 hg
      simp [startedCount] at hstep h ⊢
      omega
  · simpa using h

/-- Running a schedule keeps the exchange count equal to the number of
threads that have performed their exchange. -/
theorem schedRun_started (sched : List Nat) :
    ∀ (pcs : List Nat) (ex : Nat), ex = startedCount pcs →
      (schedRun sched pcs ex).2 = startedCount (schedRun sched pcs ex).1 := by
  induction sched with
  | nil => intro pcs ex h; simpa [schedRun] using h
  | cons t rest ih =>
      intro pcs ex h
      simp only [schedRun]
      exact ih _ _ (schedStep_started pcs ex t h)

/-- A scheduler step does not change the number of threads. -/
theorem schedStep_length (pcs : List Nat) (ex t : Nat) :
    (schedStep pcs ex t).1.length = pcs.length := by
  unfold schedStep
  split <;> simp

/-- Running a schedule does not change the number of threads. -/
theorem schedRun_length (sched : List Nat) :
    ∀ (pcs : List Nat) (ex : Nat), (schedRun sched pcs ex).1.length = pcs.length := by
  induction sched with
  | nil => intro pcs ex; simp [schedRun]
  | cons t rest ih =>
      intro pcs ex
      simp only [schedRun]
      rw [ih]
      exact schedStep_length pcs ex t

/-- Before any step, no thread has performed its exchange. -/
theorem startedCount_replicate_zero (n : Nat) :
    startedCount (List.replicate n 0) = 0 := by
  induction n with
  | zero => simp [startedCount]
  | succ m ih => simp [startedCount, List.replicate, List.countP_cons] at ih ⊢

/-- C8: for each of the four inbound operations (search, get, suggest,
whoami), a request carrying no inbound bearer token returns the
"Not authenticated" error value with the server state unchanged — so no
token exchange and no store call is performed. -/
theorem unauthenticated_short_circuit (provider : Provider) (store : SearchFn)
    (storeGet : GetFn) (st : ServerState) (q : String) (top : Int) (id : String) :
    search_documents provider store st none q top
        = (Except.ok [[("error", JVal.s "Not authenticated")]], st)
    ∧ get_document provider storeGet st none id
        = (Except.ok [("error", JVal.s "Not authenticated")], st)
    ∧ suggest provider store st none q top
        = (Except.ok [[("error", JVal.s "Not authenticated")]], st)
    ∧ get_user_info st none = ([("error", JVal.s "Not authenticated")], st) :=
  ⟨rfl, rfl, rfl, rfl⟩

/-- C10: every document returned by search, get-by-id and suggest is exactly
the store's result document with the keys starting with `'@'` removed: a
key/value pair survives the projection iff it was present and its key does
not start with `'@'`, and every surviving value is unmodified. -/
theorem odata_projection_passthrough (st : ServerState) (atok : AccessToken)
    (q : String) (top : Int) (id : String) (rs : List RawDoc) (dDoc : RawDoc)
    (obo : String) (d : RawDoc) (k : String) (v : JVal) :
    (search_documents (fun _ => msalOk obo) (fun _ _ _ => Except.ok rs)
        st (some atok) q top).1 = Except.ok (rs.map project)
    ∧ (get_document (fun _ => msalOk obo) (fun _ _ => Except.ok dDoc)
        st (some atok) id).1 = Except.ok (project dDoc)
    ∧ (suggest (fun _ => msalOk obo) (fun _ _ _ => Except.ok rs)
        st (some atok) q top).1 = Except.ok (rs.map project)
    ∧ ((k, v) ∈ project d ↔ (k, v) ∈ d ∧ pyStartswith k "@" = false) :=
  ⟨rfl, rfl, rfl, mem_project_iff d k v⟩

/-- C5 counterexample: a caller-supplied `top = 500` reaches the backing
store unchanged in both the search and the suggest operation — no clamping
to 100 happens anywhere. -/
theorem top_not_clamped_cex :
    (search_documents (fun _ => msalOk "obo-token") (fun _ _ _ => Except.ok [])
        ServerState.start (some ⟨"user-token", []⟩) "contract" 500).2.storeReqs
      = [StoreReq.searchReq "contract" 500 "obo-token"]
    ∧ (suggest (fun _ => msalOk "obo-token") (fun _ _ _ => Except.ok [])
        ServerState.start (some ⟨"user-token", []⟩) "contract" 500).2.storeReqs
      = [StoreReq.suggestReq "contract" 500 "sg" "obo-token"]
    ∧ ¬ ((500 : Int) ≤ 100) :=
  ⟨rfl, rfl, by decide⟩

/-- C5 amended: the search and suggest operations pass the caller-supplied
`top` to the backing store unmodified, whatever its value — the code
performs no clamping. -/
theorem top_passed_through (store : SearchFn) (st : ServerState)
    (atok : AccessToken) (q : String) (top : Int) (obo : String) :
    (search_documents (fun _ => msalOk obo) store st (some atok) q top).2.storeReqs
        = st.storeReqs ++ [StoreReq.searchReq q top obo]
    ∧ (suggest (fun _ => msalOk obo) store st (some atok) q top).2.storeReqs
        = st.storeReqs ++ [StoreReq.suggestReq q top "sg" obo] := by
  constructor
  · rw [search_documents_state_ok (fun _ => msalOk obo) store st atok q top obo rfl]
  · rw [suggest_state_ok (fun _ => msalOk obo) store st atok q top obo rfl]

/-- C6 counterexample: the provider fails once with the transient
ProviderUnavailable kind and would succeed on any retry, yet the operation
fails terminally after exactly one provider invocation — no retry, no
backoff. -/
theorem provider_unavailable_not_retried_cex :
    (search_documents
        (fun i => if i = 0
          then msalErr "temporarily_unavailable" "AADSTS90033: A transient error has occurred."
          else msalOk "fresh-token")
        (fun _ _ _ => Except.ok []) ServerState.start
        (some ⟨"inbound-token", []⟩) "query" 5).1
      = Except.error "OBO token acquisition failed: temporarily_unavailable: AADSTS90033: A transient error has occurred."
    ∧ (search_documents
        (fun i => if i = 0
          then msalErr "temporarily_unavailable" "AADSTS90033: A transient error has occurred."
          else msalOk "fresh-token")
        (fun _ _ _ => Except.ok []) ServerState.start
        (some ⟨"inbound-token", []⟩) "query" 5).2.oboCalls.length = 1 :=
  ⟨rfl, rfl⟩

/-- C6 amended: every exchange failure, whatever its error kind, is terminal
for the current request: the provider is invoked exactly once, the raised
exception carries the provider's error and description, and no store call is
made. -/
theorem exchange_failures_terminal (store : SearchFn) (st : ServerState)
    (atok : AccessToken) (q : String) (top : Int) (e d : String) :
    (get_obo_token (fun _ => msalErr e d) st atok.token).1
        = Except.error ("OBO token acquisition failed: " ++ e ++ ": " ++ d)
    ∧ (get_obo_token (fun _ => msalErr e d) st atok.token).2.oboCalls
        = st.oboCalls ++ [(atok.token, obo_scopes)]
    ∧ (search_documents (fun _ => msalErr e d) store st (some atok) q top).1
        = Except.error ("OBO token acquisition failed: " ++ e ++ ": " ++ d)
    ∧ (search_documents (fun _ => msalErr e d) store st (some atok) q top).2.storeReqs
        = st.storeReqs :=
  ⟨rfl, rfl, rfl, rfl⟩

/-- C7 counterexample: when the backing store raises, get_document returns
the store's raw exception string verbatim to the caller in the "error"
field — the raw error detail is not replaced by a generic message. -/
theorem raw_error_forwarded_cex :
    (get_document (fun _ => msalOk "obo-token")
        (fun _ _ => Except.error "RequestFailedError: internal backing store details (operation id 123)")
        ServerState.start (some ⟨"inbound-token", []⟩) "doc1").1
      = Except.ok
          [("error", JVal.s "RequestFailedError: internal backing store details (operation id 123)"),
           ("id", JVal.s "doc1")]
    ∧ ("error", JVal.s "RequestFailedError: internal backing store details (operation id 123)")
        ∈ [("error", JVal.s "RequestFailedError: internal backing store details (operation id 123)"),
           ("id", JVal.s "doc1")] :=
  ⟨rfl, by decide⟩

/-- C7 amended: failing operations forward raw error detail to the caller:
get_document returns the backing store's raw exception string verbatim in
its "error" field, and an exchange failure propagates out of the operation
carrying the provider's raw error code and raw error description. -/
theorem raw_error_forwarded (st : ServerState) (atok : AccessToken)
    (id msg obo : String) (store : SearchFn) (q : String) (top : Int) (e d : String) :
    (get_document (fun _ => msalOk obo) (fun _ _ => Except.error msg)
        st (some atok) id).1
      = Except.ok [("error", JVal.s msg), ("id", JVal.s id)]
    ∧ (search_documents (fun _ => msalErr e d) store st (some atok) q top).1
      = Except.error ("OBO token acquisition failed: " ++ e ++ ": " ++ d) :=
  ⟨rfl, rfl⟩

/-- C1 counterexample: a stored sample document returned by the store is
surfaced by the search operation with its permission fields intact — the
projection keeps the `oid` (authorized-subject-ids) and `group`
(authorized-group-ids) entries, because only keys starting with `'@'` are
stripped. -/
theorem permission_fields_reach_caller_cex :
    (search_documents (fun _ => msalOk "obo-token") (fun _ _ _ => Except.ok [sample_doc1])
        ServerState.start (some ⟨"user1-token", []⟩) "security" 5).1
      = Except.ok [project sample_doc1]
    ∧ ("oid", JVal.arr ["user1@example.com", "user2@example.com"]) ∈ project sample_doc1
    ∧ ("group", JVal.arr ["group1", "group2"]) ∈ project sample_doc1
    ∧ "oid" ∈ permission_field_names
    ∧ "group" ∈ permission_field_names :=
  ⟨rfl, by decide, by decide, by decide, by decide⟩

/-- C1 amended: the operations strip only the keys starting with `'@'`
(OData annotations) from returned documents; the permission fields `oid` and
`group` are not stripped, so whenever the store returns them they are
surfaced to the caller. -/
theorem permission_fields_not_stripped (st : ServerState) (atok : AccessToken)
    (q : String) (top : Int) (rs : List RawDoc) (obo : String) (d : RawDoc)
    (v w : JVal) (hd : d ∈ rs) (hv : ("oid", v) ∈ d) (hw : ("group", w) ∈ d) :
    (search_documents (fun _ => msalOk obo) (fun _ _ _ => Except.ok rs)
        st (some atok) q top).1 = Except.ok (rs.map project)
    ∧ project d ∈ rs.map project
    ∧ ("oid", v) ∈ project d
    ∧ ("group", w) ∈ project d
    ∧ "oid" ∈ permission_field_names
    ∧ "group" ∈ permission_field_names := by
  refine ⟨rfl, List.mem_map_of_mem project hd, ?_, ?_, by decide, by decide⟩
  · exact (mem_project_iff d "oid" v).mpr ⟨hv, by decide⟩
  · exact (mem_project_iff d "group" w).mpr ⟨hw, by decide⟩

/-- C1 witness: the amended statement at the first sample document. -/
theorem permission_fields_not_stripped_witness :
    (search_documents (fun _ => msalOk "obo-tok") (fun _ _ _ => Except.ok [sample_doc1])
        ServerState.start (some ⟨"tok", []⟩) "q" 5).1 = Except.ok ([sample_doc1].map project)
    ∧ project sample_doc1 ∈ [sample_doc1].map project
    ∧ ("oid", JVal.arr ["user1@example.com", "user2@example.com"]) ∈ project sample_doc1
    ∧ ("group", JVal.arr ["group1", "group2"]) ∈ project sample_doc1
    ∧ "oid" ∈ permission_field_names
    ∧ "group" ∈ permission_field_names :=
  permission_fields_not_stripped ServerState.start ⟨"tok", []⟩ "q" 5 [sample_doc1]
    "obo-tok" sample_doc1 (JVal.arr ["user1@example.com", "user2@example.com"])
    (JVal.arr ["group1", "group2"]) (List.mem_singleton.mpr rfl) (by decide) (by decide)

/-- C2: the get-by-id operation returns the same value whether the requested
key is absent from the store or present but not visible to the caller — with
the store following the spec's permission-filtered boundary, the two runs
are equal as whole results, so document existence cannot leak. -/
theorem get_document_notfound_indistinguishable (provider : Provider)
    (st : ServerState) (atok : AccessToken) (key : String)
    (docs1 : List PermDoc) (c1 : Caller) (docs2 : List PermDoc) (c2 : Caller)
    (d : PermDoc)
    (h1 : docs1.find? (fun d => d.key == key) = none)
    (h2 : docs2.find? (fun d => d.key == key) = some d)
    (hv : visibleTo c2 d = false) :
    get_document provider (permStoreGet docs1 c1) st (some atok) key
      = get_document provider (permStoreGet docs2 c2) st (some atok) key := by
  have e1 : ∀ obo, permStoreGet docs1 c1 key obo = Except.error (notFoundMessage key) := by
    intro obo; simp [permStoreGet, h1]
  have e2 : ∀ obo, permStoreGet docs2 c2 key obo = Except.error (notFoundMessage key) := by
    intro obo; simp [permStoreGet, h2, hv]
  cases hp : (provider st.oboCalls.length).access_token with
  | none => simp [get_document, get_search_client_with_obo, get_obo_token, hp]
  | some obo =>
      simp [get_document, get_search_client_with_obo, get_obo_token, hp, e1, e2]

/-- C2 witness: a store without `doc1` and a store holding `doc1` authorized
only for `user1`, queried on behalf of `user2`, produce identical results. -/
theorem get_document_notfound_indistinguishable_witness :
    get_document (fun _ => msalOk "obo-token") (permStoreGet [] ⟨"user2@example.com", []⟩)
        ServerState.start (some ⟨"tok", []⟩) "doc1"
      = get_document (fun _ => msalOk "obo-token")
          (permStoreGet [⟨"doc1", ["user1@example.com"], [], sample_doc1⟩] ⟨"user2@example.com", []⟩)
          ServerState.start (some ⟨"tok", []⟩) "doc1" :=
  get_document_notfound_indistinguishable (fun _ => msalOk "obo-token")
    ServerState.start ⟨"tok", []⟩ "doc1" [] ⟨"user2@example.com", []⟩
    [⟨"doc1", ["user1@example.com"], [], sample_doc1⟩] ⟨"user2@example.com", []⟩
    ⟨"doc1", ["user1@example.com"], [], sample_doc1⟩ rfl rfl (by decide)

/-- C3 amended: there is no exchange cache — every call performs its own
exchange. Two successive search calls with the same inbound token, subject
and scope set invoke the provider twice (once per call), and each call hands
the store the token from its own exchange, so distinct provider responses
reach the store on the two calls. -/
theorem exchange_per_call (store : SearchFn) (atok : AccessToken)
    (q : String) (top : Int) (tokA tokB : String) :
    (search_documents (fun i => if i = 0 then msalOk tokA else msalOk tokB) store
        (search_documents (fun i => if i = 0 then msalOk tokA else msalOk tokB) store
          ServerState.start (some atok) q top).2
        (some atok) q top).2
      = ⟨[(atok.token, obo_scopes), (atok.token, obo_scopes)],
         [StoreReq.searchReq q top tokA, StoreReq.searchReq q top tokB]⟩ := by
  have h1 := search_documents_state_ok (fun i => if i = 0 then msalOk tokA else msalOk tokB)
    store ServerState.start atok q top tokA (by simp [ServerState.start, msalOk])
  rw [h1]
  have h2 := search_documents_state_ok (fun i => if i = 0 then msalOk tokA else msalOk tokB)
    store ⟨ServerState.start.oboCalls ++ [(atok.token, obo_scopes)],
           ServerState.start.storeReqs ++ [StoreReq.searchReq q top tokA]⟩
    atok q top tokB (by simp [ServerState.start, msalOk, obo_scopes])
  rw [h2]
  simp [ServerState.start]

/-- C3 counterexample: two calls sharing subject, tenant and scope set,
issued back to back, trigger two provider invocations — not at most one —
and hand two different downstream token values to the store. -/
theorem exchange_cache_absent_cex :
    (search_documents (fun i => if i = 0 then msalOk "tokenA" else msalOk "tokenB")
        (fun _ _ _ => Except.ok [])
        (search_documents (fun i => if i = 0 then msalOk "tokenA" else msalOk "tokenB")
          (fun _ _ _ => Except.ok []) ServerState.start (some ⟨"inbound", []⟩) "q" 5).2
        (some ⟨"inbound", []⟩) "q" 5).2
      = ⟨[("inbound", obo_scopes), ("inbound", obo_scopes)],
         [StoreReq.searchReq "q" 5 "tokenA", StoreReq.searchReq "q" 5 "tokenB"]⟩
    ∧ ("tokenA" : String) ≠ "tokenB"
    ∧ ¬ ([("inbound", obo_scopes), ("inbound", obo_scopes)].length ≤ 1) :=
  ⟨rfl, by decide, by decide⟩

/-- C4 amended: concurrent requests sharing an ExchangeKey do not coalesce:
under every interleaving in which all n request pipelines complete, exactly
n provider exchanges are performed (one per request, since each pipeline
calls the provider unconditionally and no shared cache or lock exists), and
each single authenticated search call appends exactly one provider
invocation. -/
theorem concurrent_requests_each_exchange (n : Nat) (sched : List Nat)
    (provider : Provider) (store : SearchFn) (st : ServerState)
    (atok : AccessToken) (q : String) (top : Int)
    (hdone : ((schedRun sched (List.replicate n 0) 0).1.all (fun pc => pc == 2)) = true) :
    (schedRun sched (List.replicate n 0) 0).2 = n
    ∧ (search_documents provider store st (some atok) q top).2.oboCalls.length
        = st.oboCalls.length + 1 := by
  constructor
  · have hinv := schedRun_started sched (List.replicate n 0) 0
      (by rw [startedCount_replicate_zero])
    rw [hinv]
    have hall : ∀ pc ∈ (schedRun sched (List.replicate n 0) 0).1,
        (fun x => decide (1 ≤ x)) pc = true := by
      intro pc hpc
      have := List.all_eq_true.mp hdone pc hpc
      simp at this ⊢
      omega
    have hlen := schedRun_length sched (List.replicate n 0) 0
    rw [startedCount, List.countP_eq_length.mpr hall, hlen, List.length_replicate]
  · rw [search_documents_oboCalls]
    simp

/-- C4 witness: two fully completing interleaved requests perform two
exchanges, and a single call appends one provider invocation. -/
theorem concurrent_requests_each_exchange_witness :
    (schedRun [0, 1, 0, 1] (List.replicate 2 0) 0).2 = 2
    ∧ (search_documents (fun _ => msalOk "t") (fun _ _ _ => Except.ok [])
        ServerState.start (some ⟨"u", []⟩) "q" 5).2.oboCalls.length
        = ServerState.start.oboCalls.length + 1 :=
  concurrent_requests_each_exchange 2 [0, 1, 0, 1] (fun _ => msalOk "t")
    (fun _ _ _ => Except.ok []) ServerState.start ⟨"u", []⟩ "q" 5 (by decide)

/-- C4 counterexample: the interleaving that first lets both requests issue
their exchange leaves two exchanges in flight at once (both program counters
at 1), and the completed run performs 2 exchange calls, not 1. -/
theorem single_flight_absent_cex :
    (schedRun [0, 1] (List.replicate 2 0) 0).1 = [1, 1]
    ∧ (schedRun [0, 1, 0, 1] (List.replicate 2 0) 0).2 = 2
    ∧ ¬ ((schedRun [0, 1, 0, 1] (List.replicate 2 0) 0).2 = 1) :=
  ⟨by decide, by decide, by decide⟩

/-- C9: every authenticated search call performs exactly one fresh exchange
and hands the store the token returned by that very exchange; hence, as long
as freshly issued provider tokens expire later than the safety margin, the
token attached to the store request is never within the margin of expiry. -/
theorem fresh_exchange_before_execution (provider : Provider) (store : SearchFn)
    (st : ServerState) (atok : AccessToken) (q : String) (top : Int) (obo : String)
    (expiryOf : String → Nat) (now margin : Nat)
    (h1 : (provider st.oboCalls.length).access_token = some obo)
    (h2 : ∀ i tok, (provider i).access_token = some tok → now + margin < expiryOf tok) :
    (search_documents provider store st (some atok) q top).2.storeReqs
        = st.storeReqs ++ [StoreReq.searchReq q top obo]
    ∧ (search_documents provider store st (some atok) q top).2.oboCalls.length
        = st.oboCalls.length + 1
    ∧ now + margin < expiryOf obo := by
  refine ⟨?_, ?_, h2 st.oboCalls.length obo h1⟩
  · rw [search_documents_state_ok provider store st atok q top obo h1]
  · rw [search_documents_oboCalls]
    simp

/-- C9 witness: with a provider issuing hour-long tokens and a 60-second
safety margin, the freshly exchanged token handed to the store is outside
the margin. -/
theorem fresh_exchange_before_execution_witness :
    (search_documents (fun _ => msalOk "obo") (fun _ _ _ => Except.ok [])
        ServerState.start (some ⟨"u", []⟩) "q" 5).2.storeReqs
        = ServerState.start.storeReqs ++ [StoreReq.searchReq "q" 5 "obo"]
    ∧ (search_documents (fun _ => msalOk "obo") (fun _ _ _ => Except.ok [])
        ServerState.start (some ⟨"u", []⟩) "q" 5).2.oboCalls.length
        = ServerState.start.oboCalls.length + 1
    ∧ (0 : Nat) + 60 < 3600 :=
  fresh_exchange_before_execution (fun _ => msalOk "obo") (fun _ _ _ => Except.ok [])
    ServerState.start ⟨"u", []⟩ "q" 5 "obo" (fun _ => 3600) 0 60 rfl
    (fun _ _ _ => by show (0 : Nat) + 60 < 3600; decide)

end EnterpriseMcpAuth
